import Mathlib

/-!
Shallow embedding of src/smtpmail.py (EmailSender repository): the
SmtpMessage builder and the SmtpClient transport, together with models of
their external collaborators (the email.message.EmailMessage header store
with the default email policy, smtplib, the email_validator library, and
the filesystem consulted by add_attachment).

All Python strings are modelled by Lean String; the two Python string
methods the source relies on (join and split) are modelled explicitly so
that their exact behaviour, including "".split(", ") == [""], is captured.
Exceptions are modelled by Except PyErr; a function returning a plain
value models Python code that cannot raise.
-/

namespace EmailSender

/-! ## Python string operations used by the source -/

/-- Python string join, "sep.join(xs)". The source only joins with the
constant COMMASPACE = ", ". -/
def pyJoin (sep : String) : List String → String
  | [] => ""
  | [a] => a
  | a :: b :: rest => a ++ sep ++ pyJoin sep (b :: rest)

/-- Char-list version of pyJoin, used for reasoning. -/
def joinL (sep : List Char) : List (List Char) → List Char
  | [] => []
  | [a] => a
  | a :: b :: rest => a ++ sep ++ joinL sep (b :: rest)

/-- Fuel-driven worker for Python string split with a nonempty separator:
leftmost match first, adjacent separators produce empty fields. The fuel
is always instantiated with the length of the scanned string, which
suffices because every step consumes at least one character. -/
def splitFuel (c₀ : Char) (sep : List Char) : Nat → List Char → List Char → List (List Char)
  | _, [], acc => [acc.reverse]
  | 0, s, acc => [acc.reverse ++ s]
  | fuel+1, c :: rest, acc =>
    if (c₀ :: sep).isPrefixOf (c :: rest) then
      acc.reverse :: splitFuel c₀ sep fuel (List.drop sep.length rest) []
    else
      splitFuel c₀ sep fuel rest (c :: acc)

/-- Char-list version of Python split with separator c₀ :: sep. -/
def pySplitL (c₀ : Char) (sep : List Char) (s : List Char) : List (List Char) :=
  splitFuel c₀ sep s.length s []

/-- Python "s.split(sep)" for a nonempty separator. In particular the
split of the empty string is a one-element list holding the empty
string, exactly as in Python. -/
def pySplitOn (s sep : String) : List String :=
  match sep.data with
  | [] => [s]
  | c₀ :: sep' => (pySplitL c₀ sep' s.data).map String.mk

/-- Python str.lower, as used for case-insensitive header-name lookup by
email.message. -/
def lowerStr (s : String) : String := String.mk (s.data.map Char.toLower)

/-! ## Model of the email.message.EmailMessage header store

EmailMessage objects created by the source use the default email policy:
header names compare case-insensitively, setting a header appends an
entry, setting a header whose registry entry is unique (max_count = 1)
raises ValueError when one is already present, and header values
containing a linefeed are rejected by header_store_parse. -/

/-- Exceptions that can arise in the embedded code. smtpException stands
for smtplib.SMTPException (covering its subclasses such as
SMTPAuthenticationError and SMTPServerDisconnected); osError for a plain
OSError that is not an SMTPException, such as the ConnectionRefusedError
of a refused TCP connection; valueError for ValueError raised by the
email library; the remaining constructors are the exception classes
declared in src/smtpmail.py (all subclasses of SmtpError, which
subclasses Exception but not smtplib.SMTPException). -/
inductive PyErr where
  | smtpException (msg : String)
  | osError (msg : String)
  | valueError (msg : String)
  | smtpConnectionError (msg : String)
  | smtpRecipientError (msg : String)
  | smtpSendError (msg : String)
deriving Repr, DecidableEq

/-- Python str(e) for the exceptions above: the carried message. -/
def PyErr.text : PyErr → String
  | .smtpException m => m
  | .osError m => m
  | .valueError m => m
  | .smtpConnectionError m => m
  | .smtpRecipientError m => m
  | .smtpSendError m => m

/-- Whether the exception is caught by "except smtplib.SMTPException". -/
def PyErr.isSMTPException : PyErr → Bool
  | .smtpException _ => true
  | _ => false

/-- The except clause of SmtpClient.connect: an smtplib.SMTPException is
re-raised as SmtpConnectionError with the source wording; any other
exception (for instance the OSError of a refused TCP connection) is not
caught and propagates unchanged. -/
def connectCatch (e : PyErr) : PyErr :=
  if e.isSMTPException then PyErr.smtpConnectionError ("Connection error: " ++ e.text)
  else e

/-- Header names registered with max_count = 1 by the default email
policy header registry (the unique header classes of
email.headerregistry). Setting a second header with one of these names
raises ValueError. -/
def uniqueHeaderNames : List String :=
  ["subject", "date", "orig-date", "sender", "to", "cc", "bcc", "from",
   "reply-to", "mime-version", "content-type", "content-disposition",
   "content-transfer-encoding", "message-id"]

/-- header_store_parse of the default email policy rejects values that
contain a linefeed character. -/
def headerValueOk (v : String) : Bool := v.data.all (fun c => !(c == '\n'))

/-- Well-behavedness of a validated address as produced by the external
email_validator under its default options: no comma (its atext and domain
alphabets exclude it, which makes the COMMASPACE join/split round trip
exact) and no linefeed (so header storage accepts the joined value). -/
def goodAddr (s : String) : Bool := s.data.all (fun c => !(c == ',') && !(c == '\n'))

/-- One MIME attachment part: file name, MIME maintype/subtype, bytes. -/
structure Attachment where
  filename : String
  maintype : String
  subtype : String
  content : List Nat
deriving Repr, DecidableEq

/-- The state of an email.message.EmailMessage that the claims observe:
the ordered header list (duplicates permitted) and the ordered attachment
parts. -/
structure EmailMessage where
  headers : List (String × String)
  attachments : List Attachment
deriving Repr, DecidableEq

/-- Python "name in msg": case-insensitive membership over the header
names. -/
def EmailMessage.containsHdr (m : EmailMessage) (k : String) : Bool :=
  m.headers.any (fun p => lowerStr p.1 == lowerStr k)

/-- Python msg[name]: the first header whose name matches
case-insensitively, or None. -/
def EmailMessage.getHdr (m : EmailMessage) (k : String) : Option String :=
  (m.headers.find? (fun p => lowerStr p.1 == lowerStr k)).map Prod.snd

/-- Python msg[name] = value under the default policy: raises ValueError
when a unique header of that name is already present, raises ValueError
when the value contains a linefeed, otherwise appends the header. -/
def EmailMessage.setHdr (m : EmailMessage) (k v : String) : Except PyErr EmailMessage :=
  if uniqueHeaderNames.contains (lowerStr k) && m.containsHdr k then
    Except.error (PyErr.valueError ("There may be at most 1 " ++ k ++ " headers in a message"))
  else if !headerValueOk v then
    Except.error (PyErr.valueError "Header values may not contain linefeed or carriage return characters")
  else
    Except.ok { m with headers := m.headers ++ [(k, v)] }

/-! ## SmtpMessage (src/smtpmail.py lines 45-539) -/

/-- SmtpMessage wraps one EmailMessage object (field named after the
Python attribute). -/
structure SmtpMessage where
  msgObj : EmailMessage
deriving Repr, DecidableEq

/-- The COMMASPACE constant of the recipient setters. -/
def COMMASPACE : String := ", "

/-- SmtpMessage._validate_emails: the external email_validator is passed
as an oracle mapping an address to its normalized form when valid (none
when EmailNotValidError is raised). Each valid address contributes its
normalized form, in order; invalid addresses are logged and dropped. -/
def SmtpMessage.validate_emails (validate : String → Option String)
    (emails : List String) : List String :=
  emails.filterMap validate

/-- SmtpMessage.set_to_addr: joins the validated addresses with
COMMASPACE and assigns the To header. -/
def SmtpMessage.set_to_addr (validate : String → Option String)
    (m : SmtpMessage) (toA : List String) : Except PyErr SmtpMessage :=
  (m.msgObj.setHdr "To" (pyJoin COMMASPACE (SmtpMessage.validate_emails validate toA))).map
    SmtpMessage.mk

/-- SmtpMessage.set_cc_addr. -/
def SmtpMessage.set_cc_addr (validate : String → Option String)
    (m : SmtpMessage) (cc : List String) : Except PyErr SmtpMessage :=
  (m.msgObj.setHdr "CC" (pyJoin COMMASPACE (SmtpMessage.validate_emails validate cc))).map
    SmtpMessage.mk

/-- SmtpMessage.set_bcc_addr. -/
def SmtpMessage.set_bcc_addr (validate : String → Option String)
    (m : SmtpMessage) (bcc : List String) : Except PyErr SmtpMessage :=
  (m.msgObj.setHdr "BCC" (pyJoin COMMASPACE (SmtpMessage.validate_emails validate bcc))).map
    SmtpMessage.mk

/-- Python truthiness of an optional list argument: None and the empty
list are falsy. -/
def pyTruthy (l : Option (List String)) : Bool :=
  match l with
  | none => false
  | some xs => !xs.isEmpty

/-- SmtpMessage.set_recipients: always sets To; sets CC and BCC only when
the corresponding argument is truthy. -/
def SmtpMessage.set_recipients (validate : String → Option String)
    (m : SmtpMessage) (toA : List String) (cc bcc : Option (List String)) :
    Except PyErr SmtpMessage := do
  let m₁ ← m.set_to_addr validate toA
  let m₂ ← if pyTruthy cc then m₁.set_cc_addr validate (cc.getD []) else pure m₁
  let m₃ ← if pyTruthy bcc then m₂.set_bcc_addr validate (bcc.getD []) else pure m₂
  pure m₃

/-- SmtpMessage.get_to_addr: splits the To header on COMMASPACE when
present, else returns the empty list. -/
def SmtpMessage.get_to_addr (m : SmtpMessage) : List String :=
  if m.msgObj.containsHdr "To" then pySplitOn ((m.msgObj.getHdr "To").getD "") COMMASPACE
  else []

/-- SmtpMessage.get_cc_addr. -/
def SmtpMessage.get_cc_addr (m : SmtpMessage) : List String :=
  if m.msgObj.containsHdr "CC" then pySplitOn ((m.msgObj.getHdr "CC").getD "") COMMASPACE
  else []

/-- SmtpMessage.get_bcc_addr. -/
def SmtpMessage.get_bcc_addr (m : SmtpMessage) : List String :=
  if m.msgObj.containsHdr "BCC" then pySplitOn ((m.msgObj.getHdr "BCC").getD "") COMMASPACE
  else []

/-- SmtpMessage.get_recipients: Python list(set(to + cc + bcc)). The set
construction is modelled by List.dedup; the claims about it are
order-insensitive, matching the unspecified iteration order of a Python
set. -/
def SmtpMessage.get_recipients (m : SmtpMessage) : List String :=
  (m.get_to_addr ++ m.get_cc_addr ++ m.get_bcc_addr).dedup

/-- SmtpMessage.set_subject. -/
def SmtpMessage.set_subject (m : SmtpMessage) (subject : String) : Except PyErr SmtpMessage :=
  (m.msgObj.setHdr "Subject" subject).map SmtpMessage.mk

/-- SmtpMessage.set_date: uses the given date, or the current RFC 2822
date (passed as the oracle argument now) when None. -/
def SmtpMessage.set_date (now : String) (m : SmtpMessage) (date : Option String) :
    Except PyErr SmtpMessage :=
  (m.msgObj.setHdr "Date" (date.getD now)).map SmtpMessage.mk

/-- SmtpMessage.set_from_addr: sets From verbatim, no validation. -/
def SmtpMessage.set_from_addr (m : SmtpMessage) (from_addr : String) : Except PyErr SmtpMessage :=
  (m.msgObj.setHdr "From" from_addr).map SmtpMessage.mk

/-- SmtpMessage.set_list_unsubscribe: sets the header verbatim. The name
List-Unsubscribe is not registered as unique, so a second call appends. -/
def SmtpMessage.set_list_unsubscribe (m : SmtpMessage) (list_unsubscribe : String) :
    Except PyErr SmtpMessage :=
  (m.msgObj.setHdr "List-Unsubscribe" list_unsubscribe).map SmtpMessage.mk

/-- SmtpMessage.set_message_id: the make_msgid output (or the id built
from the given tuple) is passed in as the oracle argument mid. -/
def SmtpMessage.set_message_id (mid : String) (m : SmtpMessage) : Except PyErr SmtpMessage :=
  (m.msgObj.setHdr "Message-ID" mid).map SmtpMessage.mk

/-- SmtpMessage.set_custom: tries the assignment and catches every
exception, logging it; on failure the message is left unchanged and
nothing is raised to the caller. -/
def SmtpMessage.set_custom (m : SmtpMessage) (key value : String) : SmtpMessage :=
  match m.msgObj.setHdr key value with
  | Except.ok em => SmtpMessage.mk em
  | Except.error _ => m

/-- SmtpMessage.to_string: the wire serialization is delegated to the
external email library; the claims never inspect its content, so it is
modelled as a plain rendering of the header list. -/
def SmtpMessage.to_string (m : SmtpMessage) : String :=
  pyJoin "\n" (m.msgObj.headers.map (fun p => p.1 ++ ": " ++ p.2))

/-! ## add_attachment and its filesystem collaborators -/

/-- The external collaborators of add_attachment: pathlib stat (none when
the path does not exist, some b with b true when it is a regular file),
the bytes read from an existing file, and mimetypes.guess_type. -/
structure PathEnv where
  stat : String → Option Bool
  readBytes : String → List Nat
  guessType : String → Option String × Option String

/-- pathlib Path.name: the final path component. -/
def pathName (p : String) : String :=
  String.mk ((p.data.reverse.takeWhile (fun c => !(c == '/'))).reverse)

/-- Python ctype.split("/", 1) followed by two-variable unpacking: none
models the ValueError raised when the string has no slash. -/
def splitTypeOnce (s : String) : Option (String × String) :=
  let p := s.data.span (fun c => !(c == '/'))
  match p.2 with
  | [] => none
  | _ :: rest => some (String.mk p.1, String.mk rest)

/-- The body of the per-path loop of SmtpMessage.add_attachment: paths
that do not exist or are not regular files are skipped with a warning;
for the rest, the MIME type is guessed (falling back to
application/octet-stream when the guess is None or implies an encoding)
and the part is appended; any exception inside the try block (modelled by
the unsplittable content type) is logged and the part skipped. -/
def addAttachmentStep (env : PathEnv) (em : EmailMessage) (path : String) : EmailMessage :=
  match env.stat path with
  | some true =>
    let g := env.guessType path
    let ctype := if g.1.isNone || g.2.isSome then "application/octet-stream" else g.1.getD ""
    match splitTypeOnce ctype with
    | some (maintype, subtype) =>
      { em with attachments :=
          em.attachments ++ [⟨pathName path, maintype, subtype, env.readBytes path⟩] }
    | none => em
  | _ => em

/-- SmtpMessage.add_attachment: iterates over the given paths when the
argument is truthy; never raises. -/
def SmtpMessage.add_attachment (env : PathEnv) (m : SmtpMessage)
    (attachment_paths : Option (List String)) : SmtpMessage :=
  match attachment_paths with
  | none => m
  | some paths => SmtpMessage.mk (paths.foldl (addAttachmentStep env) m.msgObj)

/-! ## SmtpClient (src/smtpmail.py lines 541-652) -/

/-- Network calls issued to the smtplib collaborator; used to express the
claims that no network send transaction is performed. -/
inductive NetEvent where
  | smtpInit (host : String) (port : Nat)
  | starttls
  | login (user pw : String)
  | sendmail (from_addr : Option String) (recipients : List String) (data : String)
  | quit
deriving Repr, DecidableEq

/-- Outcome oracle for the smtplib server: for each protocol call (the
SMTP constructor, starttls, login, sendmail and quit), none means success
and some e means the call raises the exception e — an
smtplib.SMTPException (e.g. SMTPAuthenticationError from login, or
SMTPServerDisconnected from quit after the server dropped the
connection), or a plain OSError such as the ConnectionRefusedError of a
refused TCP open. -/
structure ServerBehavior where
  initErr : Option PyErr
  starttlsErr : Option PyErr
  loginErr : Option PyErr
  sendmailErr : Option PyErr
  quitErr : Option PyErr
deriving Repr, DecidableEq

/-- SmtpClient state: constructor parameters plus the _server attribute,
some () while a connection handle is held and none otherwise. -/
structure SmtpClient where
  smtp_host : String
  smtp_port : Nat
  username : String
  password : String
  server : Option Unit
deriving Repr, DecidableEq

/-- Result of one client operation: the updated client, the network
calls issued, and the normal or exceptional outcome. -/
structure ClientStep where
  client : SmtpClient
  log : List NetEvent
  result : Except PyErr Unit

/-- SmtpClient.connect: a no-op with a warning when already connected;
otherwise SMTP(host, port), starttls, login in order, inside a try whose
only except clause catches smtplib.SMTPException and re-raises
SmtpConnectionError (connectCatch); any other exception, such as the
OSError of a refused TCP open, propagates unwrapped. The _server
attribute is assigned by the SMTP constructor, so it stays None when the
constructor raises but remains assigned when starttls or login fails. -/
def SmtpClient.connect (b : ServerBehavior) (c : SmtpClient) : ClientStep :=
  if c.server.isSome then
    ⟨c, [], Except.ok ()⟩
  else
    match b.initErr with
    | some e =>
      ⟨c, [NetEvent.smtpInit c.smtp_host c.smtp_port],
       Except.error (connectCatch e)⟩
    | none =>
      let c₁ : SmtpClient := { c with server := some () }
      match b.starttlsErr with
      | some e =>
        ⟨c₁, [NetEvent.smtpInit c.smtp_host c.smtp_port, NetEvent.starttls],
         Except.error (connectCatch e)⟩
      | none =>
        match b.loginErr with
        | some e =>
          ⟨c₁, [NetEvent.smtpInit c.smtp_host c.smtp_port, NetEvent.starttls,
                NetEvent.login c.username c.password],
           Except.error (connectCatch e)⟩
        | none =>
          ⟨c₁, [NetEvent.smtpInit c.smtp_host c.smtp_port, NetEvent.starttls,
                NetEvent.login c.username c.password],
           Except.ok ()⟩

/-- SmtpClient.disconnect: when connected, calls self._server.quit() and
only then clears the handle; disconnect has no exception handling, so
when quit raises (e.g. SMTPServerDisconnected after the server dropped
the connection) the exception propagates and the assignment
self._server = None is never reached — the handle stays set. No-op when
already disconnected. -/
def SmtpClient.disconnect (b : ServerBehavior) (c : SmtpClient) : ClientStep :=
  match c.server with
  | some _ =>
    match b.quitErr with
    | some e => ⟨c, [NetEvent.quit], Except.error e⟩
    | none => ⟨{ c with server := none }, [NetEvent.quit], Except.ok ()⟩
  | none => ⟨c, [], Except.ok ()⟩

/-- SmtpClient.send_email. The whole body is a try block: the
SmtpConnectionError and SmtpRecipientError raised inside it are
themselves caught by the blanket except clauses at the bottom, which
re-raise SmtpSendError; smtplib.SMTPException from sendmail is re-raised
as SmtpSendError with the other wording. -/
def SmtpClient.send_email (b : ServerBehavior) (c : SmtpClient) (message : SmtpMessage) :
    List NetEvent × Except PyErr Unit :=
  let tryBody : List NetEvent × Except PyErr Unit :=
    if c.server.isNone then
      ([], Except.error (PyErr.smtpConnectionError
        "Not connected to any SMTP server. Please connect first."))
    else
      let all_recipients := message.get_recipients
      if all_recipients.isEmpty then
        ([], Except.error (PyErr.smtpRecipientError
          "No recipients specified. Please provide at least one recipient."))
      else
        let ev := NetEvent.sendmail (message.msgObj.getHdr "From") all_recipients
          message.to_string
        match b.sendmailErr with
        | some e => ([ev], Except.error e)
        | none => ([ev], Except.ok ())
  match tryBody with
  | (log, Except.ok ()) => (log, Except.ok ())
  | (log, Except.error e) =>
    if e.isSMTPException then
      (log, Except.error (PyErr.smtpSendError ("Failed to send email: " ++ e.text)))
    else
      (log, Except.error (PyErr.smtpSendError ("An error occurred: " ++ e.text)))

/-- The with-statement over an SmtpClient: __enter__ connects (when that
raises, the body and __exit__ do not run); __exit__ calls disconnect()
and returns False on an exception, so the body outcome is propagated —
unless disconnect itself raises, in which case that exception propagates
out of __exit__ and replaces any exception the body raised. -/
def withClient (b : ServerBehavior) (c : SmtpClient)
    (body : SmtpClient → ClientStep) : ClientStep :=
  let enter := c.connect b
  match enter.result with
  | Except.error e => ⟨enter.client, enter.log, Except.error e⟩
  | Except.ok () =>
    let r := body enter.client
    let ex := SmtpClient.disconnect b r.client
    match ex.result with
    | Except.error e => ⟨ex.client, enter.log ++ r.log ++ ex.log, Except.error e⟩
    | Except.ok () => ⟨ex.client, enter.log ++ r.log ++ ex.log, r.result⟩

/-! ## Concrete fixtures used by witnesses and counterexamples -/

/-- A fresh SmtpMessage() as produced by the constructor. -/
def freshSmtpMessage : SmtpMessage := ⟨⟨[], []⟩⟩

/-- A server behaviour on which every protocol step succeeds. -/
def okBehavior : ServerBehavior := ⟨none, none, none, none, none⟩

/-- A server behaviour whose login step raises SMTPException. -/
def loginFailBehavior : ServerBehavior :=
  ⟨none, none, some (PyErr.smtpException "auth failed"), none, none⟩

/-- A server behaviour whose TCP open is refused: the SMTP constructor
raises ConnectionRefusedError, an OSError that is not an SMTPException. -/
def tcpRefusedBehavior : ServerBehavior :=
  ⟨some (PyErr.osError "[Errno 111] Connection refused"), none, none, none, none⟩

/-- A server behaviour on which the connection drops after the protocol
steps, so quit() raises SMTPServerDisconnected. -/
def quitFailBehavior : ServerBehavior :=
  ⟨none, none, none, none, some (PyErr.smtpException "Connection unexpectedly closed")⟩

/-- A freshly constructed client (the source constructor defaults). -/
def freshClient : SmtpClient := ⟨"smtp.gmail.com", 587, "user", "pw", none⟩

/-- A client holding a connection handle. -/
def connectedClient : SmtpClient := ⟨"smtp.gmail.com", 587, "user", "pw", some ()⟩

/-- A trivial body for the with-statement fixtures. -/
def idBody : SmtpClient → ClientStep := fun cl => ⟨cl, [], Except.ok ()⟩

/-- A with-statement body that raises, as a failed send would. -/
def failBody : SmtpClient → ClientStep :=
  fun cl => ⟨cl, [], Except.error (PyErr.smtpSendError "Failed to send email: boom")⟩

/-- A filesystem oracle on which no path exists. -/
def emptyEnv : PathEnv := ⟨fun _ => none, fun _ => [], fun _ => (none, none)⟩

/-- A concrete stand-in for the external email_validator collaborator,
used only to instantiate witnesses: the single address "a\x40x.com" is
valid and already normalized, everything else is invalid. -/
def unitValidator : String → Option String :=
  fun e => if e == "a@x.com" then some "a@x.com" else none

/-- A concrete validator stand-in with a non-identity normalization: the
unnormalized spelling "a\x40X.com" and the normalized "a\x40x.com" are both
valid and both normalize to "a\x40x.com". -/
def normValidator : String → Option String :=
  fun e => if e == "a@X.com" || e == "a@x.com" then some "a@x.com" else none

/-- A message on which the single-valued headers are already set once. -/
def mAllHeaders : SmtpMessage :=
  ⟨⟨[("Subject", "s"), ("Date", "d"), ("From", "f"), ("To", "t"),
     ("List-Unsubscribe", "u")], []⟩⟩

/-! ## Lemmas about the string model -/

theorem data_append (s t : String) : (s ++ t).data = s.data ++ t.data := by
  cases s
  cases t
  rfl

theorem data_pyJoin (sep : String) (l : List String) :
    (pyJoin sep l).data = joinL sep.data (l.map String.data) := by
  induction l with
  | nil => rfl
  | cons a rest ih =>
    cases rest with
    | nil => rfl
    | cons b rest' =>
      show (a ++ sep ++ pyJoin sep (b :: rest')).data = _
      rw [data_append, data_append, ih]
      rfl

theorem mem_joinL (sep : List Char) (L : List (List Char)) (c : Char)
    (h : c ∈ joinL sep L) : (∃ x ∈ L, c ∈ x) ∨ c ∈ sep := by
  induction L with
  | nil => simp [joinL] at h
  | cons a rest ih =>
    cases rest with
    | nil =>
      exact Or.inl ⟨a, by simp, by simpa [joinL] using h⟩
    | cons b rest' =>
      have h' : c ∈ a ++ sep ++ joinL sep (b :: rest') := h
      simp only [List.append_assoc, List.mem_append] at h'
      rcases h' with ha | hs | hj
      · exact Or.inl ⟨a, by simp, ha⟩
      · exact Or.inr hs
      · rcases ih hj with ⟨x, hx, hcx⟩ | hs
        · exact Or.inl ⟨x, by simp [hx], hcx⟩
        · exact Or.inr hs

theorem isPrefixOf_append_self (l r : List Char) : l.isPrefixOf (l ++ r) = true := by
  induction l with
  | nil => simp [List.isPrefixOf]
  | cons a as ih => simp [List.isPrefixOf, ih]

theorem isPrefixOf_cons_ne (c₀ c : Char) (sep l : List Char) (h : c ≠ c₀) :
    (c₀ :: sep).isPrefixOf (c :: l) = false := by
  have hb : (c₀ == c) = false := beq_eq_false_iff_ne.mpr (Ne.symm h)
  simp [List.isPrefixOf, hb]

theorem splitFuel_congr (c₀ : Char) (sep : List Char) :
    ∀ (f₁ : Nat) (s acc : List Char) (f₂ : Nat), s.length ≤ f₁ → s.length ≤ f₂ →
      splitFuel c₀ sep f₁ s acc = splitFuel c₀ sep f₂ s acc := by
  intro f₁
  induction f₁ with
  | zero =>
    intro s acc f₂ h₁ _
    have hs : s = [] := by
      cases s with
      | nil => rfl
      | cons c r => simp at h₁
    subst hs
    cases f₂ <;> rfl
  | succ f ih =>
    intro s acc f₂ h₁ h₂
    cases s with
    | nil => cases f₂ <;> rfl
    | cons c rest =>
      cases f₂ with
      | zero => simp at h₂
      | succ g =>
        simp only [splitFuel]
        cases hb : (c₀ :: sep).isPrefixOf (c :: rest) with
        | true =>
          simp only [hb, if_true]
          have hl₁ : (List.drop sep.length rest).length ≤ f := by
            have := List.length_drop sep.length rest
            simp only [List.length_cons] at h₁
            omega
          have hl₂ : (List.drop sep.length rest).length ≤ g := by
            have := List.length_drop sep.length rest
            simp only [List.length_cons] at h₂
            omega
          rw [ih _ _ g hl₁ hl₂]
        | false =>
          simp only [hb, Bool.false_eq_true, if_false]
          have hl₁ : rest.length ≤ f := by
            simp only [List.length_cons] at h₁
            omega
          have hl₂ : rest.length ≤ g := by
            simp only [List.length_cons] at h₂
            omega
          rw [ih _ _ g hl₁ hl₂]

theorem splitFuel_all_clean (c₀ : Char) (sep : List Char) :
    ∀ (x acc : List Char) (f : Nat), c₀ ∉ x → x.length ≤ f →
      splitFuel c₀ sep f x acc = [acc.reverse ++ x] := by
  intro x
  induction x with
  | nil =>
    intro acc f _ _
    cases f <;> simp [splitFuel]
  | cons c x' ih =>
    intro acc f hx hf
    cases f with
    | zero => simp at hf
    | succ g =>
      have hc : c ≠ c₀ := by
        intro hcc
        exact hx (hcc ▸ List.mem_cons_self c x')
      simp only [splitFuel, isPrefixOf_cons_ne c₀ c sep x' hc, Bool.false_eq_true, if_false]
      rw [ih (c :: acc) g (fun hm => hx (List.mem_cons_of_mem c hm))
        (by simp only [List.length_cons] at hf; omega)]
      simp

theorem splitFuel_emit (c₀ : Char) (sep : List Char) :
    ∀ (x rest acc : List Char) (f : Nat), c₀ ∉ x →
      (x ++ (c₀ :: sep) ++ rest).length ≤ f →
      splitFuel c₀ sep f (x ++ (c₀ :: sep) ++ rest) acc
        = (acc.reverse ++ x) :: splitFuel c₀ sep rest.length rest [] := by
  intro x
  induction x with
  | nil =>
    intro rest acc f _ hf
    cases f with
    | zero => simp at hf
    | succ g =>
      show splitFuel c₀ sep (g + 1) (c₀ :: (sep ++ rest)) acc = _
      have hpre : (c₀ :: sep).isPrefixOf (c₀ :: (sep ++ rest)) = true :=
        isPrefixOf_append_self (c₀ :: sep) rest
      simp only [splitFuel, hpre, if_true]
      have hdrop : List.drop sep.length (sep ++ rest) = rest :=
        List.drop_left sep rest
      rw [hdrop]
      have hg : rest.length ≤ g := by
        simp only [List.nil_append, List.length_append, List.length_cons] at hf
        omega
      rw [splitFuel_congr c₀ sep g rest [] rest.length hg le_rfl]
      simp
  | cons c x' ih =>
    intro rest acc f hx hf
    cases f with
    | zero => simp at hf
    | succ g =>
      have hc : c ≠ c₀ := by
        intro hcc
        exact hx (hcc ▸ List.mem_cons_self c x')
      show splitFuel c₀ sep (g + 1) (c :: (x' ++ (c₀ :: sep) ++ rest)) acc = _
      have hnp : (c₀ :: sep).isPrefixOf (c :: (x' ++ (c₀ :: sep) ++ rest)) = false :=
        isPrefixOf_cons_ne c₀ c sep _ hc
      simp only [splitFuel, hnp, Bool.false_eq_true, if_false]
      rw [ih rest (c :: acc) g (fun hm => hx (List.mem_cons_of_mem c hm))
        (by simp only [List.length_append, List.length_cons] at hf ⊢; omega)]
      simp

theorem pySplitL_joinL (c₀ : Char) (sep : List Char) :
    ∀ l : List (List Char), l ≠ [] → (∀ x ∈ l, c₀ ∉ x) →
      pySplitL c₀ sep (joinL (c₀ :: sep) l) = l := by
  intro l
  induction l with
  | nil => intro h; exact absurd rfl h
  | cons a rest ih =>
    intro _ hmem
    cases rest with
    | nil =>
      show pySplitL c₀ sep a = [a]
      unfold pySplitL
      rw [splitFuel_all_clean c₀ sep a [] a.length (hmem a (by simp)) le_rfl]
      simp
    | cons b rest' =>
      show pySplitL c₀ sep (a ++ (c₀ :: sep) ++ joinL (c₀ :: sep) (b :: rest')) = a :: b :: rest'
      unfold pySplitL
      rw [splitFuel_emit c₀ sep a _ [] _ (hmem a (by simp)) le_rfl]
      have hrec := ih (by simp) (fun x hx => hmem x (List.mem_cons_of_mem a hx))
      unfold pySplitL at hrec
      rw [hrec]
      simp

theorem string_mk_data (s : String) : String.mk s.data = s := rfl

theorem pySplitOn_pyJoin (l : List String) (hl : l ≠ [])
    (hc : ∀ x ∈ l, (',' : Char) ∉ x.data) :
    pySplitOn (pyJoin ", " l) ", " = l := by
  show (pySplitL ',' [' '] (pyJoin ", " l).data).map String.mk = l
  rw [data_pyJoin]
  have hsep : (", " : String).data = ',' :: [' '] := rfl
  rw [hsep]
  rw [pySplitL_joinL ',' [' '] (l.map String.data)
    (by simpa using hl)
    (by
      intro x hx
      obtain ⟨y, hy, rfl⟩ := List.mem_map.mp hx
      exact hc y hy)]
  rw [List.map_map]
  have : (String.mk ∘ String.data) = id := by
    funext s
    rfl
  rw [this, List.map_id]

/-! ## Lemmas about addresses and header storage -/

theorem goodAddr_no_comma {x : String} (h : goodAddr x = true) : (',' : Char) ∉ x.data := by
  intro hc
  have h' := (List.all_eq_true.mp h) ',' hc
  simp at h'

theorem goodAddr_no_lf {x : String} (h : goodAddr x = true) : ('\n' : Char) ∉ x.data := by
  intro hc
  have h' := (List.all_eq_true.mp h) '\n' hc
  simp at h'

theorem headerValueOk_pyJoin (l : List String) (h : ∀ x ∈ l, goodAddr x = true) :
    headerValueOk (pyJoin ", " l) = true := by
  unfold headerValueOk
  rw [List.all_eq_true]
  intro c hc
  rw [data_pyJoin] at hc
  have hsep : (", " : String).data = [',', ' '] := rfl
  rw [hsep] at hc
  rcases mem_joinL _ _ _ hc with ⟨x, hx, hcx⟩ | hs
  · obtain ⟨y, hy, rfl⟩ := List.mem_map.mp hx
    have hlf := goodAddr_no_lf (h y hy)
    simp only [Bool.not_eq_true', beq_eq_false_iff_ne]
    intro heq
    exact hlf (heq ▸ hcx)
  · simp only [List.mem_cons, List.not_mem_nil, or_false] at hs
    rcases hs with rfl | rfl <;> decide

theorem validated_of_falsy (validate : String → Option String) (cc : Option (List String))
    (h : pyTruthy cc = false) :
    SmtpMessage.validate_emails validate (cc.getD []) = [] := by
  cases cc with
  | none => rfl
  | some l =>
    simp only [pyTruthy, Bool.not_eq_false', List.isEmpty_iff] at h
    simp [SmtpMessage.validate_emails, h]

theorem hdrBeq_to_cc : (lowerStr "To" == lowerStr "CC") = false := by decide

theorem hdrBeq_to_bcc : (lowerStr "To" == lowerStr "BCC") = false := by decide

theorem hdrBeq_cc_to : (lowerStr "CC" == lowerStr "To") = false := by decide

theorem hdrBeq_cc_bcc : (lowerStr "CC" == lowerStr "BCC") = false := by decide

theorem hdrBeq_bcc_to : (lowerStr "BCC" == lowerStr "To") = false := by decide

theorem hdrBeq_bcc_cc : (lowerStr "BCC" == lowerStr "CC") = false := by decide

theorem uniq_subject : uniqueHeaderNames.contains (lowerStr "Subject") = true := by decide

theorem uniq_date : uniqueHeaderNames.contains (lowerStr "Date") = true := by decide

theorem uniq_from : uniqueHeaderNames.contains (lowerStr "From") = true := by decide

theorem uniq_to : uniqueHeaderNames.contains (lowerStr "To") = true := by decide

theorem nonuniq_list_unsubscribe :
    uniqueHeaderNames.contains (lowerStr "List-Unsubscribe") = false := by decide

theorem unitValidator_good : ∀ e n, unitValidator e = some n → goodAddr n = true := by
  intro e n h
  unfold unitValidator at h
  split at h
  · cases h
    decide
  · cases h

theorem normValidator_good : ∀ e n, normValidator e = some n → goodAddr n = true := by
  intro e n h
  unfold normValidator at h
  split at h
  · cases h
    decide
  · cases h

/-- Success of the underlying header assignment yields exactly an
appended header entry. -/
theorem setHdr_ok_shape (m em : EmailMessage) (k v : String)
    (h : m.setHdr k v = Except.ok em) :
    em = { m with headers := m.headers ++ [(k, v)] } := by
  unfold EmailMessage.setHdr at h
  split at h
  · cases h
  · split at h
    · cases h
    · cases h
      rfl

/-! ## Claim theorems -/

/-- C1: the spec (and the docstring of send_email) says that a send with
zero valid recipients raises RecipientError and performs no network send.
In the code the raise statement sits inside the try block of send_email,
whose blanket except-Exception clause catches the SmtpRecipientError and
raises SmtpSendError instead. This theorem evaluates the embedded
send_email at the failing input (a connected client and a message whose
To/CC/BCC groups hold no valid address): the network log is empty, as
claimed, but the surfaced exception is SmtpSendError, not
SmtpRecipientError. -/
theorem send_email_wraps_recipient_error :
    SmtpClient.send_email okBehavior connectedClient freshSmtpMessage
      = ([], Except.error (PyErr.smtpSendError
          "An error occurred: No recipients specified. Please provide at least one recipient.")) := by
  rfl

/-- C2: the spec says a send on a Disconnected client raises
ConnectionError, not SendError, with no network I/O. In the code the
SmtpConnectionError raised inside the try block of send_email is caught
by the blanket except-Exception clause and re-raised as SmtpSendError.
This theorem evaluates the embedded send_email on any client whose
_server attribute is None: the log is empty (no network I/O, as claimed)
but the surfaced exception is SmtpSendError. -/
theorem send_email_disconnected_raises_send_error (b : ServerBehavior)
    (host : String) (port : Nat) (user pw : String) (m : SmtpMessage) :
    SmtpClient.send_email b ⟨host, port, user, pw, none⟩ m
      = ([], Except.error (PyErr.smtpSendError
          "An error occurred: Not connected to any SMTP server. Please connect first.")) := by
  rfl

/-- C3 counterexample: the claim fails in two ways. (a) A connect whose
login step fails with SMTPException raises SmtpConnectionError but
leaves the _server attribute assigned, so the client is not Disconnected
afterwards. (b) A connect whose TCP open is refused propagates the
OSError unwrapped — no ConnectionError is raised — because the except
clause of connect only catches smtplib.SMTPException. -/
theorem connect_failure_not_as_claimed :
    ((⟨"smtp.gmail.com", 587, "user", "pw", none⟩ : SmtpClient).connect
        loginFailBehavior).client.server = some () ∧
    ((⟨"smtp.gmail.com", 587, "user", "pw", none⟩ : SmtpClient).connect
        loginFailBehavior).result
      = Except.error (PyErr.smtpConnectionError "Connection error: auth failed") ∧
    ((⟨"smtp.gmail.com", 587, "user", "pw", none⟩ : SmtpClient).connect
        tcpRefusedBehavior).result
      = Except.error (PyErr.osError "[Errno 111] Connection refused") :=
  ⟨rfl, rfl, rfl⟩

/-- C3 amended: a failing connect from the Disconnected state raises
ConnectionError exactly when the underlying failure is an
smtplib.SMTPException; any other exception, such as the OSError of a
refused TCP open, propagates unwrapped. The state afterwards is
Disconnected exactly when the failure happened at the TCP-open step (the
SMTP constructor raised before assigning _server); when STARTTLS or
authentication fails, the connection handle has already been assigned to
_server and is retained, so the client reports Connected. -/
theorem connect_failure_behavior (b : ServerBehavior) (c : SmtpClient)
    (h : c.server = none) :
    (∀ e, b.initErr = some e → e.isSMTPException = true →
        (c.connect b).client.server = none ∧
        (c.connect b).result
          = Except.error (PyErr.smtpConnectionError ("Connection error: " ++ e.text))) ∧
    (∀ e, b.initErr = some e → e.isSMTPException = false →
        (c.connect b).client.server = none ∧
        (c.connect b).result = Except.error e) ∧
    (∀ e, b.initErr = none → b.starttlsErr = some e → e.isSMTPException = true →
        (c.connect b).client.server = some () ∧
        (c.connect b).result
          = Except.error (PyErr.smtpConnectionError ("Connection error: " ++ e.text))) ∧
    (∀ e, b.initErr = none → b.starttlsErr = some e → e.isSMTPException = false →
        (c.connect b).client.server = some () ∧
        (c.connect b).result = Except.error e) ∧
    (∀ e, b.initErr = none → b.starttlsErr = none → b.loginErr = some e →
        e.isSMTPException = true →
        (c.connect b).client.server = some () ∧
        (c.connect b).result
          = Except.error (PyErr.smtpConnectionError ("Connection error: " ++ e.text))) ∧
    (∀ e, b.initErr = none → b.starttlsErr = none → b.loginErr = some e →
        e.isSMTPException = false →
        (c.connect b).client.server = some () ∧
        (c.connect b).result = Except.error e) := by
  refine ⟨?_, ?_, ?_, ?_, ?_, ?_⟩
  · intro e he hs
    simp [SmtpClient.connect, connectCatch, h, he, hs]
  · intro e he hs
    simp [SmtpClient.connect, connectCatch, h, he, hs]
  · intro e hi he hs
    simp [SmtpClient.connect, connectCatch, h, hi, he, hs]
  · intro e hi he hs
    simp [SmtpClient.connect, connectCatch, h, hi, he, hs]
  · intro e hi ht he hs
    simp [SmtpClient.connect, connectCatch, h, hi, ht, he, hs]
  · intro e hi ht he hs
    simp [SmtpClient.connect, connectCatch, h, hi, ht, he, hs]

/-- Witness for connect_failure_behavior: the login-failure instance (an
SMTPException, wrapped) and the TCP-refused instance (an OSError,
propagated unwrapped with the state still Disconnected). -/
theorem connect_failure_behavior_witness :
    (((⟨"h", 25, "u", "p", none⟩ : SmtpClient).connect loginFailBehavior).client.server
        = some () ∧
      ((⟨"h", 25, "u", "p", none⟩ : SmtpClient).connect loginFailBehavior).result
        = Except.error (PyErr.smtpConnectionError
            ("Connection error: " ++ (PyErr.smtpException "auth failed").text))) ∧
    (((⟨"h", 25, "u", "p", none⟩ : SmtpClient).connect tcpRefusedBehavior).client.server
        = none ∧
      ((⟨"h", 25, "u", "p", none⟩ : SmtpClient).connect tcpRefusedBehavior).result
        = Except.error (PyErr.osError "[Errno 111] Connection refused")) :=
  ⟨(connect_failure_behavior loginFailBehavior ⟨"h", 25, "u", "p", none⟩ rfl).2.2.2.2.1
      (PyErr.smtpException "auth failed") rfl rfl rfl rfl,
   (connect_failure_behavior tcpRefusedBehavior ⟨"h", 25, "u", "p", none⟩ rfl).2.1
      (PyErr.osError "[Errno 111] Connection refused") rfl rfl⟩

/-- C4 counterexample: when the server has dropped the connection, the
quit() inside the disconnect called by __exit__ raises
SMTPServerDisconnected: that exception propagates out of the with block,
replacing the exception the body raised, and the assignment clearing
_server is never reached, so the client still holds the handle — both
halves of the claim fail even though the enter step succeeded. The third
conjunct records the body outcome that was replaced. -/
theorem with_block_quit_failure :
    (withClient quitFailBehavior freshClient failBody).client.server = some () ∧
    (withClient quitFailBehavior freshClient failBody).result
      = Except.error (PyErr.smtpException "Connection unexpectedly closed") ∧
    (failBody ((freshClient.connect quitFailBehavior).client)).result
      = Except.error (PyErr.smtpSendError "Failed to send email: boom") :=
  ⟨rfl, rfl, rfl⟩

/-- C4 amended: when the enter step of the with-statement succeeded,
__exit__ always calls disconnect. When the final quit succeeds the
client is Disconnected after the block exits and the body outcome
(normal or exceptional) is propagated unchanged; but when quit raises
(e.g. SMTPServerDisconnected) while the handle is still held, the quit
exception propagates instead, replacing any exception of the body, and
the connection handle stays assigned, so the client is not Disconnected
after the block. -/
theorem with_block_exit_behavior (b : ServerBehavior) (c : SmtpClient)
    (body : SmtpClient → ClientStep)
    (h : (c.connect b).result = Except.ok ()) :
    (b.quitErr = none →
        (withClient b c body).client.server = none ∧
        (withClient b c body).result = (body (c.connect b).client).result) ∧
    (∀ e, b.quitErr = some e →
        (body (c.connect b).client).client.server = some () →
        (withClient b c body).client.server = some () ∧
        (withClient b c body).result = Except.error e) := by
  constructor
  · intro hq
    simp only [withClient, h]
    cases hs : (body (c.connect b).client).client.server with
    | none => simp [SmtpClient.disconnect, hs]
    | some u => simp [SmtpClient.disconnect, hs, hq]
  · intro e hq hs
    simp only [withClient, h]
    simp [SmtpClient.disconnect, hs, hq]

/-- Witness for with_block_exit_behavior: the clean-quit instance and the
failing-quit instance. -/
theorem with_block_exit_behavior_witness :
    ((withClient okBehavior freshClient idBody).client.server = none ∧
      (withClient okBehavior freshClient idBody).result
        = (idBody ((freshClient.connect okBehavior).client)).result) ∧
    ((withClient quitFailBehavior freshClient idBody).client.server = some () ∧
      (withClient quitFailBehavior freshClient idBody).result
        = Except.error (PyErr.smtpException "Connection unexpectedly closed")) :=
  ⟨(with_block_exit_behavior okBehavior freshClient idBody rfl).1 rfl,
   (with_block_exit_behavior quitFailBehavior freshClient idBody rfl).2
      (PyErr.smtpException "Connection unexpectedly closed") rfl rfl⟩

/-- C8 counterexample: a structurally invalid custom header assignment (a
value holding a linefeed) makes set_custom return normally with the
message unchanged; no exception of any kind reaches the caller, so the
claimed HeaderError is never raised (and indeed the source declares no
such exception class). -/
theorem set_custom_invalid_value_returns_normally :
    freshSmtpMessage.set_custom "X-Test" "a\nb" = freshSmtpMessage := by
  rfl

/-- C8 amended: whenever the underlying header assignment fails,
set_custom catches the exception and logs it: nothing is raised to the
caller, the message-building sequence continues, and the message (hence
the header) is left unchanged. No HeaderError type exists in the
library. -/
theorem set_custom_swallows_errors (m : SmtpMessage) (k v : String) (e : PyErr)
    (h : m.msgObj.setHdr k v = Except.error e) :
    m.set_custom k v = m := by
  simp [SmtpMessage.set_custom, h]

/-- Witness for set_custom_swallows_errors. -/
theorem set_custom_swallows_errors_witness :
    freshSmtpMessage.set_custom "X-Head" "bad\nvalue" = freshSmtpMessage :=
  set_custom_swallows_errors freshSmtpMessage "X-Head" "bad\nvalue"
    (PyErr.valueError "Header values may not contain linefeed or carriage return characters")
    rfl

/-- C9: a path that does not name an existing regular file contributes no
attachment part and does not disturb the parts contributed by the other
paths (the result is the same as if the missing path had not been given),
and a lone missing path leaves the attachment count unchanged;
add_attachment is total, so nothing is raised. -/
theorem add_attachment_skips_missing (env : PathEnv) (m : SmtpMessage)
    (ps₁ ps₂ : List String) (p : String) (h : env.stat p = none) :
    m.add_attachment env (some (ps₁ ++ p :: ps₂))
        = m.add_attachment env (some (ps₁ ++ ps₂)) ∧
    (m.add_attachment env (some [p])).msgObj.attachments = m.msgObj.attachments := by
  have hstep : ∀ em, addAttachmentStep env em p = em := by
    intro em
    simp [addAttachmentStep, h]
  constructor
  · simp [SmtpMessage.add_attachment, List.foldl_append, hstep]
  · simp [SmtpMessage.add_attachment, hstep]

/-- Witness for add_attachment_skips_missing on a filesystem with no
files. -/
theorem add_attachment_skips_missing_witness :
    (freshSmtpMessage.add_attachment emptyEnv (some ([] ++ "missing.txt" :: []))
        = freshSmtpMessage.add_attachment emptyEnv (some ([] ++ []))) ∧
    (freshSmtpMessage.add_attachment emptyEnv (some ["missing.txt"])).msgObj.attachments
        = freshSmtpMessage.msgObj.attachments :=
  add_attachment_skips_missing emptyEnv freshSmtpMessage [] [] "missing.txt" rfl

/-- Evaluation of set_recipients on a fresh message when the validator
produces well-behaved addresses: the call succeeds and the resulting
header list holds To always, plus CC and BCC exactly when the
corresponding argument was truthy. -/
theorem set_recipients_eval (validate : String → Option String)
    (toA : List String) (cc bcc : Option (List String))
    (hgood : ∀ e n, validate e = some n → goodAddr n = true) :
    freshSmtpMessage.set_recipients validate toA cc bcc
      = Except.ok ⟨⟨[("To", pyJoin ", " (SmtpMessage.validate_emails validate toA))]
          ++ (if pyTruthy cc
              then [("CC", pyJoin ", " (SmtpMessage.validate_emails validate (cc.getD [])))]
              else [])
          ++ (if pyTruthy bcc
              then [("BCC", pyJoin ", " (SmtpMessage.validate_emails validate (bcc.getD [])))]
              else []), []⟩⟩ := by
  have gto : ∀ x ∈ SmtpMessage.validate_emails validate toA, goodAddr x = true := by
    intro x hx
    obtain ⟨e, _, hv⟩ := List.mem_filterMap.mp hx
    exact hgood e x hv
  have gcc : ∀ x ∈ SmtpMessage.validate_emails validate (cc.getD []), goodAddr x = true := by
    intro x hx
    obtain ⟨e, _, hv⟩ := List.mem_filterMap.mp hx
    exact hgood e x hv
  have gbcc : ∀ x ∈ SmtpMessage.validate_emails validate (bcc.getD []), goodAddr x = true := by
    intro x hx
    obtain ⟨e, _, hv⟩ := List.mem_filterMap.mp hx
    exact hgood e x hv
  have vto := headerValueOk_pyJoin _ gto
  have vcc := headerValueOk_pyJoin _ gcc
  have vbcc := headerValueOk_pyJoin _ gbcc
  cases hc : pyTruthy cc <;> cases hb : pyTruthy bcc <;>
    simp [SmtpMessage.set_recipients, SmtpMessage.set_to_addr, SmtpMessage.set_cc_addr,
      SmtpMessage.set_bcc_addr, EmailMessage.setHdr, EmailMessage.containsHdr,
      freshSmtpMessage, COMMASPACE, hc, hb, vto, vcc, vbcc,
      hdrBeq_to_cc, hdrBeq_to_bcc, hdrBeq_cc_bcc,
      Bind.bind, Pure.pure, Except.map, Except.bind, Except.pure]

/-- C6 counterexample: a To group whose only candidate is filtered out by
validation still gets a To header, present with the empty value, contrary
to the claim that the header is absent. -/
theorem filtered_group_still_gets_header :
    freshSmtpMessage.set_recipients unitValidator ["bad"] none none
        = Except.ok ⟨⟨[("To", "")], []⟩⟩ ∧
    (⟨⟨[("To", "")], []⟩⟩ : SmtpMessage).msgObj.containsHdr "To" = true ∧
    (⟨⟨[("To", "")], []⟩⟩ : SmtpMessage).msgObj.getHdr "To" = some "" :=
  ⟨rfl, rfl, rfl⟩

/-- C6 amended: after set_recipients on a fresh message, the To header is
always present (with the empty value when the whole group was filtered
out); a CC or BCC header is present exactly when the corresponding
argument was truthy, i.e. a group passed as None or as the empty list
gets no header, but a nonempty group whose addresses are all filtered
out gets a header with the empty value. -/
theorem recipient_group_header_presence (validate : String → Option String)
    (toA : List String) (cc bcc : Option (List String)) (m' : SmtpMessage)
    (hgood : ∀ e n, validate e = some n → goodAddr n = true)
    (h : freshSmtpMessage.set_recipients validate toA cc bcc = Except.ok m') :
    m'.msgObj.containsHdr "To" = true ∧
    m'.msgObj.containsHdr "CC" = pyTruthy cc ∧
    m'.msgObj.containsHdr "BCC" = pyTruthy bcc ∧
    (SmtpMessage.validate_emails validate toA = [] → m'.msgObj.getHdr "To" = some "") := by
  rw [set_recipients_eval validate toA cc bcc hgood] at h
  injection h with h'
  subst h'
  cases hc : pyTruthy cc <;> cases hb : pyTruthy bcc <;>
    refine ⟨?_, ?_, ?_, ?_⟩ <;>
    first
    | (intro hempty
       simp [hc, hb, EmailMessage.getHdr, hempty, pyJoin])
    | simp [hc, hb, EmailMessage.containsHdr,
        hdrBeq_to_cc, hdrBeq_to_bcc, hdrBeq_cc_to, hdrBeq_cc_bcc, hdrBeq_bcc_to, hdrBeq_bcc_cc]

/-- Witness for recipient_group_header_presence: an all-invalid To group
together with a valid CC group. -/
theorem recipient_group_header_presence_witness :
    (⟨⟨[("To", ""), ("CC", "a@x.com")], []⟩⟩ : SmtpMessage).msgObj.containsHdr "To" = true ∧
    (⟨⟨[("To", ""), ("CC", "a@x.com")], []⟩⟩ : SmtpMessage).msgObj.containsHdr "CC"
        = pyTruthy (some ["a@x.com"]) ∧
    (⟨⟨[("To", ""), ("CC", "a@x.com")], []⟩⟩ : SmtpMessage).msgObj.containsHdr "BCC"
        = pyTruthy none ∧
    (SmtpMessage.validate_emails unitValidator ["bad"] = [] →
      (⟨⟨[("To", ""), ("CC", "a@x.com")], []⟩⟩ : SmtpMessage).msgObj.getHdr "To" = some "") :=
  recipient_group_header_presence unitValidator ["bad"] (some ["a@x.com"]) none
    ⟨⟨[("To", ""), ("CC", "a@x.com")], []⟩⟩ unitValidator_good rfl

/-- C7 counterexample: calling set_subject a second time does not
overwrite: the underlying unique-header check raises ValueError, and the
message keeps the first value. -/
theorem second_set_subject_raises :
    freshSmtpMessage.set_subject "a" = Except.ok ⟨⟨[("Subject", "a")], []⟩⟩ ∧
    (⟨⟨[("Subject", "a")], []⟩⟩ : SmtpMessage).set_subject "b"
        = Except.error (PyErr.valueError "There may be at most 1 Subject headers in a message") :=
  ⟨rfl, rfl⟩

/-- C7 amended: the single-valued setters do not overwrite. For the
headers the default email policy registers as unique (Date, From, To,
CC, BCC, Subject, Message-ID) a second call raises ValueError and the
message keeps the single prior header; set_list_unsubscribe targets a
non-unique name, so a second call appends one more header instead of
overwriting; attachments and custom headers append as the claim says. -/
theorem single_valued_setters_do_not_overwrite (m : SmtpMessage) (v : String) :
    (m.msgObj.containsHdr "Subject" = true →
      m.set_subject v
        = Except.error (PyErr.valueError "There may be at most 1 Subject headers in a message")) ∧
    (m.msgObj.containsHdr "Date" = true → ∀ (now : String) (d : Option String),
      SmtpMessage.set_date now m d
        = Except.error (PyErr.valueError "There may be at most 1 Date headers in a message")) ∧
    (m.msgObj.containsHdr "From" = true →
      m.set_from_addr v
        = Except.error (PyErr.valueError "There may be at most 1 From headers in a message")) ∧
    (m.msgObj.containsHdr "To" = true →
      ∀ (validate : String → Option String) (toA : List String),
      m.set_to_addr validate toA
        = Except.error (PyErr.valueError "There may be at most 1 To headers in a message")) ∧
    (headerValueOk v = true →
      m.set_list_unsubscribe v
        = Except.ok ⟨{ m.msgObj with
            headers := m.msgObj.headers ++ [("List-Unsubscribe", v)] }⟩) := by
  refine ⟨?_, ?_, ?_, ?_, ?_⟩
  · intro h
    have hmem : lowerStr "Subject" ∈ uniqueHeaderNames := by decide
    simp [SmtpMessage.set_subject, EmailMessage.setHdr, Except.map, hmem, h]
  · intro h now d
    have hmem : lowerStr "Date" ∈ uniqueHeaderNames := by decide
    simp [SmtpMessage.set_date, EmailMessage.setHdr, Except.map, hmem, h]
  · intro h
    have hmem : lowerStr "From" ∈ uniqueHeaderNames := by decide
    simp [SmtpMessage.set_from_addr, EmailMessage.setHdr, Except.map, hmem, h]
  · intro h validate toA
    have hmem : lowerStr "To" ∈ uniqueHeaderNames := by decide
    simp [SmtpMessage.set_to_addr, EmailMessage.setHdr, Except.map, hmem, h]
  · intro hv
    have hnm : lowerStr "List-Unsubscribe" ∉ uniqueHeaderNames := by decide
    simp [SmtpMessage.set_list_unsubscribe, EmailMessage.setHdr, Except.map, hnm, hv]

/-- Witness for single_valued_setters_do_not_overwrite on a message with
all the relevant headers already present once. -/
theorem single_valued_setters_witness :
    mAllHeaders.msgObj.containsHdr "Subject" = true ∧
    mAllHeaders.set_subject "x"
        = Except.error (PyErr.valueError "There may be at most 1 Subject headers in a message") ∧
    mAllHeaders.set_list_unsubscribe "x"
        = Except.ok ⟨{ mAllHeaders.msgObj with
            headers := mAllHeaders.msgObj.headers ++ [("List-Unsubscribe", "x")] }⟩ :=
  ⟨by decide,
   (single_valued_setters_do_not_overwrite mAllHeaders "x").1 (by decide),
   (single_valued_setters_do_not_overwrite mAllHeaders "x").2.2.2.2 (by decide)⟩

/-- C5 counterexample: with an all-invalid To group and a valid CC group,
get_recipients returns the empty string as an extra element (the To
header was set to the empty value and Python "".split(", ") is [""]), so
the result is not exactly the union of the valid addresses. -/
theorem get_recipients_not_exact_union :
    (freshSmtpMessage.set_recipients unitValidator ["bad"] (some ["a@x.com"]) none
        = Except.ok ⟨⟨[("To", ""), ("CC", "a@x.com")], []⟩⟩) ∧
    "" ∈ (⟨⟨[("To", ""), ("CC", "a@x.com")], []⟩⟩ : SmtpMessage).get_recipients ∧
    "" ∉ (SmtpMessage.validate_emails unitValidator ["bad"] ++
          SmtpMessage.validate_emails unitValidator ["a@x.com"] ++
          SmtpMessage.validate_emails unitValidator []) := by
  refine ⟨rfl, ?_, ?_⟩
  · decide
  · decide

/-- C5 amended: set_recipients followed by get_recipients on a fresh
message returns exactly the duplicate-free union of the validated
addresses of the three groups, provided every group that is actually set
(To always; CC and BCC when truthy) retains at least one valid address —
otherwise its header is the empty string and get_recipients additionally
returns the spurious empty-string element. -/
theorem set_get_recipients_union (validate : String → Option String)
    (toA : List String) (cc bcc : Option (List String)) (m' : SmtpMessage)
    (hgood : ∀ e n, validate e = some n → goodAddr n = true)
    (hto : SmtpMessage.validate_emails validate toA ≠ [])
    (hcc : pyTruthy cc = true → SmtpMessage.validate_emails validate (cc.getD []) ≠ [])
    (hbcc : pyTruthy bcc = true → SmtpMessage.validate_emails validate (bcc.getD []) ≠ [])
    (h : freshSmtpMessage.set_recipients validate toA cc bcc = Except.ok m') :
    (∀ a, a ∈ m'.get_recipients ↔
        a ∈ SmtpMessage.validate_emails validate toA ++
            SmtpMessage.validate_emails validate (cc.getD []) ++
            SmtpMessage.validate_emails validate (bcc.getD [])) ∧
    m'.get_recipients.Nodup := by
  rw [set_recipients_eval validate toA cc bcc hgood] at h
  injection h with h'
  subst h'
  have gto : ∀ x ∈ SmtpMessage.validate_emails validate toA, goodAddr x = true := by
    intro x hx
    obtain ⟨e, _, hv⟩ := List.mem_filterMap.mp hx
    exact hgood e x hv
  have gcc : ∀ x ∈ SmtpMessage.validate_emails validate (cc.getD []), goodAddr x = true := by
    intro x hx
    obtain ⟨e, _, hv⟩ := List.mem_filterMap.mp hx
    exact hgood e x hv
  have gbcc : ∀ x ∈ SmtpMessage.validate_emails validate (bcc.getD []), goodAddr x = true := by
    intro x hx
    obtain ⟨e, _, hv⟩ := List.mem_filterMap.mp hx
    exact hgood e x hv
  have hsplit_to : pySplitOn (pyJoin ", " (SmtpMessage.validate_emails validate toA)) ", "
      = SmtpMessage.validate_emails validate toA :=
    pySplitOn_pyJoin _ hto (fun x hx => goodAddr_no_comma (gto x hx))
  cases hc : pyTruthy cc with
  | false =>
    have hvcc : SmtpMessage.validate_emails validate (cc.getD []) = [] :=
      validated_of_falsy validate cc hc
    cases hb : pyTruthy bcc with
    | false =>
      have hvbcc : SmtpMessage.validate_emails validate (bcc.getD []) = [] :=
        validated_of_falsy validate bcc hb
      refine ⟨?_, ?_⟩
      · intro a
        simp [SmtpMessage.get_recipients, SmtpMessage.get_to_addr, SmtpMessage.get_cc_addr,
          SmtpMessage.get_bcc_addr, EmailMessage.containsHdr, EmailMessage.getHdr,
          List.find?, COMMASPACE, hc, hb, hvcc, hvbcc, hsplit_to,
          hdrBeq_to_cc, hdrBeq_to_bcc, List.mem_dedup]
      · simp [SmtpMessage.get_recipients, List.nodup_dedup]
    | true =>
      have hsplit_bcc : pySplitOn
          (pyJoin ", " (SmtpMessage.validate_emails validate (bcc.getD []))) ", "
          = SmtpMessage.validate_emails validate (bcc.getD []) :=
        pySplitOn_pyJoin _ (hbcc hb) (fun x hx => goodAddr_no_comma (gbcc x hx))
      refine ⟨?_, ?_⟩
      · intro a
        simp [SmtpMessage.get_recipients, SmtpMessage.get_to_addr, SmtpMessage.get_cc_addr,
          SmtpMessage.get_bcc_addr, EmailMessage.containsHdr, EmailMessage.getHdr,
          List.find?, COMMASPACE, hc, hb, hvcc, hsplit_to, hsplit_bcc,
          hdrBeq_to_cc, hdrBeq_to_bcc, hdrBeq_bcc_cc, hdrBeq_bcc_to, List.mem_dedup]
      · simp [SmtpMessage.get_recipients, List.nodup_dedup]
  | true =>
    have hsplit_cc : pySplitOn
        (pyJoin ", " (SmtpMessage.validate_emails validate (cc.getD []))) ", "
        = SmtpMessage.validate_emails validate (cc.getD []) :=
      pySplitOn_pyJoin _ (hcc hc) (fun x hx => goodAddr_no_comma (gcc x hx))
    cases hb : pyTruthy bcc with
    | false =>
      have hvbcc : SmtpMessage.validate_emails validate (bcc.getD []) = [] :=
        validated_of_falsy validate bcc hb
      refine ⟨?_, ?_⟩
      · intro a
        simp [SmtpMessage.get_recipients, SmtpMessage.get_to_addr, SmtpMessage.get_cc_addr,
          SmtpMessage.get_bcc_addr, EmailMessage.containsHdr, EmailMessage.getHdr,
          List.find?, COMMASPACE, hc, hb, hvbcc, hsplit_to, hsplit_cc,
          hdrBeq_to_cc, hdrBeq_to_bcc, hdrBeq_cc_to, hdrBeq_cc_bcc, List.mem_dedup]
      · simp [SmtpMessage.get_recipients, List.nodup_dedup]
    | true =>
      have hsplit_bcc : pySplitOn
          (pyJoin ", " (SmtpMessage.validate_emails validate (bcc.getD []))) ", "
          = SmtpMessage.validate_emails validate (bcc.getD []) :=
        pySplitOn_pyJoin _ (hbcc hb) (fun x hx => goodAddr_no_comma (gbcc x hx))
      refine ⟨?_, ?_⟩
      · intro a
        simp [SmtpMessage.get_recipients, SmtpMessage.get_to_addr, SmtpMessage.get_cc_addr,
          SmtpMessage.get_bcc_addr, EmailMessage.containsHdr, EmailMessage.getHdr,
          List.find?, COMMASPACE, hc, hb, hsplit_to, hsplit_cc, hsplit_bcc,
          hdrBeq_to_cc, hdrBeq_to_bcc, hdrBeq_cc_to, hdrBeq_cc_bcc, hdrBeq_bcc_to,
          hdrBeq_bcc_cc, List.mem_dedup]
      · simp [SmtpMessage.get_recipients, List.nodup_dedup]

/-- Witness for set_get_recipients_union: one valid To address, no CC or
BCC. -/
theorem set_get_recipients_union_witness :
    (∀ a, a ∈ (⟨⟨[("To", "a@x.com")], []⟩⟩ : SmtpMessage).get_recipients ↔
        a ∈ SmtpMessage.validate_emails unitValidator ["a@x.com"] ++
            SmtpMessage.validate_emails unitValidator ((none : Option (List String)).getD []) ++
            SmtpMessage.validate_emails unitValidator ((none : Option (List String)).getD [])) ∧
    (⟨⟨[("To", "a@x.com")], []⟩⟩ : SmtpMessage).get_recipients.Nodup :=
  set_get_recipients_union unitValidator ["a@x.com"] none none
    ⟨⟨[("To", "a@x.com")], []⟩⟩ unitValidator_good (by decide) (by decide) (by decide) rfl

/-- C10: every address stored by set_to_addr is the normalized form
produced by the validator (the To header is exactly the COMMASPACE join
of the normalized forms, not of the verbatim inputs), and consequently
get_recipients returns exactly the normalized forms of the valid inputs. -/
theorem stored_addresses_are_normalized (validate : String → Option String)
    (toA : List String) (m' : SmtpMessage)
    (hgood : ∀ e n, validate e = some n → goodAddr n = true)
    (hne : SmtpMessage.validate_emails validate toA ≠ [])
    (h : freshSmtpMessage.set_to_addr validate toA = Except.ok m') :
    m'.msgObj.getHdr "To"
        = some (pyJoin COMMASPACE (SmtpMessage.validate_emails validate toA)) ∧
    (∀ a, a ∈ m'.get_recipients ↔ ∃ e ∈ toA, validate e = some a) := by
  have gto : ∀ x ∈ SmtpMessage.validate_emails validate toA, goodAddr x = true := by
    intro x hx
    obtain ⟨e, _, hv⟩ := List.mem_filterMap.mp hx
    exact hgood e x hv
  have vto := headerValueOk_pyJoin _ gto
  have heval : freshSmtpMessage.set_to_addr validate toA
      = Except.ok ⟨⟨[("To", pyJoin ", " (SmtpMessage.validate_emails validate toA))], []⟩⟩ := by
    simp [SmtpMessage.set_to_addr, EmailMessage.setHdr, EmailMessage.containsHdr,
      freshSmtpMessage, COMMASPACE, Except.map, vto]
  rw [heval] at h
  injection h with h'
  subst h'
  have hsplit_to : pySplitOn (pyJoin ", " (SmtpMessage.validate_emails validate toA)) ", "
      = SmtpMessage.validate_emails validate toA :=
    pySplitOn_pyJoin _ hne (fun x hx => goodAddr_no_comma (gto x hx))
  refine ⟨?_, ?_⟩
  · simp [EmailMessage.getHdr, List.find?, COMMASPACE]
  · intro a
    have hmem : a ∈ SmtpMessage.validate_emails validate toA ↔ ∃ e ∈ toA, validate e = some a :=
      List.mem_filterMap
    simp [SmtpMessage.get_recipients, SmtpMessage.get_to_addr, SmtpMessage.get_cc_addr,
      SmtpMessage.get_bcc_addr, EmailMessage.containsHdr, EmailMessage.getHdr,
      List.find?, COMMASPACE, hsplit_to, hdrBeq_to_cc, hdrBeq_to_bcc, List.mem_dedup, hmem]

/-- Witness for stored_addresses_are_normalized: the unnormalized input
form is validated, and the stored and returned address is its normalized
form. -/
theorem stored_addresses_are_normalized_witness :
    (⟨⟨[("To", "a@x.com")], []⟩⟩ : SmtpMessage).msgObj.getHdr "To"
        = some (pyJoin COMMASPACE (SmtpMessage.validate_emails normValidator ["a@X.com"])) ∧
    (∀ a, a ∈ (⟨⟨[("To", "a@x.com")], []⟩⟩ : SmtpMessage).get_recipients
        ↔ ∃ e ∈ ["a@X.com"], normValidator e = some a) :=
  stored_addresses_are_normalized normValidator ["a@X.com"] ⟨⟨[("To", "a@x.com")], []⟩⟩
    normValidator_good (by decide) rfl

end EmailSender
